import Mathlib

/-!
# Interaction script `bravo.js`: a shallow embedding

Numbers are exact rationals (`ℚ`); wall-clock time is integer milliseconds.
Every feature module of the script is embedded as explicit state plus one
function per event handler.  Divisions are the rational ones, so the model
follows the script wherever a divisor is non-zero.
-/

namespace Bravo

/-! ## Parallax driver (`parallaxSetup`) -/

/-- Value of `parseFloat` on a string: `NaN`, or a number. -/
inductive ParsedFloat where
  | nan
  | num (q : ℚ)
deriving DecidableEq

/-- The expression `x || dflt` where `x` is a `parseFloat` result:
`NaN` and `0` are falsy, every other number is kept. -/
def orDefault (x : ParsedFloat) (dflt : ℚ) : ℚ :=
  match x with
  | .nan => dflt
  | .num q => if q = 0 then dflt else q

/-- The expression `a || b` on two numbers. -/
def numOr (a b : ℚ) : ℚ := if a = 0 then b else a

/-- The part of `window` that the script reads. -/
structure Window where
  innerWidth : ℚ
  innerHeight : ℚ
  scrollY : ℚ
  pageYOffset : ℚ

/-- An element matched by `[data-depth], .parallax`.  `dataDepth = none` when the
attribute is absent, otherwise it holds `parseFloat` of the attribute string.
`transform` is the pair `(x, y)` of `translate3d(x px, y px, 0)`. -/
structure ParallaxEl where
  dataDepth : Option ParsedFloat
  transform : ℚ × ℚ

/-- The expression `parseFloat(el.getAttribute('data-depth'))`; `getAttribute` gives
`null` for an absent attribute, which parses to `NaN`. -/
def parseDepth (el : ParallaxEl) : ParsedFloat :=
  match el.dataDepth with
  | none => .nan
  | some r => r

/-- Closure variables of `parallaxSetup`. -/
structure ParallaxState where
  mouseX : ℚ
  mouseY : ℚ
  ww : ℚ
  wh : ℚ
  parallaxEls : List ParallaxEl

/-- Body of `parallaxSetup` up to the first frame request; `none` is the early return. -/
def parallaxSetup (w : Window) (els : List ParallaxEl) : Option ParallaxState :=
  if els.length = 0 then none
  else some ⟨0, 0, w.innerWidth, w.innerHeight, els⟩

/-- The `resize` listener of `parallaxSetup`. -/
def parallaxResize (w : Window) (s : ParallaxState) : ParallaxState :=
  { s with ww := w.innerWidth, wh := w.innerHeight }

/-- The `mousemove` listener of `parallaxSetup`. -/
def parallaxMousemove (clientX clientY : ℚ) (s : ParallaxState) : ParallaxState :=
  { s with mouseX := (clientX / s.ww) * 2 - 1, mouseY := (clientY / s.wh) * 2 - 1 }

/-- The constant `depth` of one iteration of `applyParallax`. -/
def depthOf (el : ParallaxEl) : ℚ := orDefault (parseDepth el) (6 / 100)

/-- The pair `(offsetX, offsetY)` of one iteration of `applyParallax`. -/
def parallaxOffset (mouseX mouseY scrollY depth : ℚ) : ℚ × ℚ :=
  (mouseX * depth * 30, mouseY * depth * 24 + scrollY * depth * (12 / 100))

/-- The constant `scrollY` of `applyParallax`. -/
def frameScrollY (w : Window) : ℚ := numOr w.scrollY w.pageYOffset

/-- One pass of `applyParallax` (the re-scheduling call leaves the state alone). -/
def applyParallax (w : Window) (s : ParallaxState) : ParallaxState :=
  let scrollY := frameScrollY w
  { s with parallaxEls := s.parallaxEls.map (fun el =>
      let depth := depthOf el
      { el with transform := parallaxOffset s.mouseX s.mouseY scrollY depth }) }

/-! ## Cursor glow (`mouseLightSetup`) -/

/-- Closure variables of `mouseLightSetup` and the style of `#mouse-light`.
Lengths are in pixels. -/
structure GlowState where
  lastMove : Int
  visible : Bool
  opacity : String
  left : ℚ
  top : ℚ
  width : ℚ
  height : ℚ
  background : String

/-- The gradient written by the `mousemove` listener. -/
def glowGradient : String :=
  "radial-gradient(circle at 30% 30%, rgba(255,90,31,0.18), rgba(255,90,31,0.06) 30%, rgba(255,90,31,0.03) 60%, transparent 80%)"

/-- The `mousemove` listener of `mouseLightSetup`; `now` is `Date.now()`. -/
def glowMousemove (now : Int) (w : Window) (clientX clientY : ℚ) (s : GlowState) :
    GlowState :=
  let width := max 140 (min 320 (w.innerWidth * (18 / 100)))
  { s with
    lastMove := now
    visible := true
    opacity := "1"
    left := clientX
    top := clientY
    width := width
    height := width
    background := glowGradient }

/-- The callback of `setInterval(..., 300)`; `now` is `Date.now()`. -/
def glowPoll (now : Int) (s : GlowState) : GlowState :=
  if !s.visible then s
  else if now - s.lastMove > 900 then { s with visible := false, opacity := "0" }
  else s

/-- Polls executed one after the other at the listed times. -/
def glowPolls (times : List Int) (s : GlowState) : GlowState :=
  times.foldl (fun st t => glowPoll t st) s

/-- Time of the `k`-th firing of an interval timer of period 300 ms created at `setup`. -/
def pollTime (setup : Int) (k : Nat) : Int := setup + 300 * (k : Int)

/-! ## Reveal on scroll (`revealSetup` and the first check of `init`) -/

/-- A `.reveal` element: whether its class list holds `visible`, whether the observer
watches it, and the `top` of its bounding rectangle. -/
structure RevealEl where
  visible : Bool
  observed : Bool
  top : ℚ

/-- An `IntersectionObserverEntry`: index of the target among the `.reveal` elements and
its `isIntersecting` flag. -/
structure Entry where
  target : Nat
  isIntersecting : Bool

/-- Apply `f` to the element at position `i`, if there is one. -/
def modifyAt {α : Type} (f : α → α) : Nat → List α → List α
  | _, [] => []
  | 0, x :: xs => f x :: xs
  | i + 1, x :: xs => x :: modifyAt f i xs

/-- The call `items.forEach(i => obs.observe(i))` of `revealSetup`; with no item the
early return leaves the empty list as it is. -/
def revealSetup (items : List RevealEl) : List RevealEl :=
  items.map (fun i => { i with observed := true })

/-- The observer callback of `revealSetup`. -/
def revealCallback (entries : List Entry) (items : List RevealEl) : List RevealEl :=
  entries.foldl (fun its ent =>
    if ent.isIntersecting then
      modifyAt (fun el => { el with visible := true, observed := false }) ent.target its
    else its) items

/-- The loop at the end of `init`: the first check of the elements above the fold. -/
def initialRevealCheck (w : Window) (items : List RevealEl) : List RevealEl :=
  items.map (fun el =>
    if el.top < w.innerHeight * (9 / 10) then { el with visible := true } else el)

/-- The reveal part of `init`: `revealSetup()` and then the first check. -/
def init (w : Window) (items : List RevealEl) : List RevealEl :=
  initialRevealCheck w (revealSetup items)

/-- The events that touch a `.reveal` element. -/
inductive RevealEvent where
  | callback (entries : List Entry)
  | initialCheck (w : Window)

/-- One event. -/
def revealStep (items : List RevealEl) : RevealEvent → List RevealEl
  | .callback entries => revealCallback entries items
  | .initialCheck w => initialRevealCheck w items

/-- The states passed through by a sequence of events, the first one included. -/
def revealTrace : List RevealEl → List RevealEvent → List (List RevealEl)
  | items, [] => [items]
  | items, e :: es => items :: revealTrace (revealStep items e) es

/-- The state reached after a sequence of events. -/
def revealRun (items : List RevealEl) (es : List RevealEvent) : List RevealEl :=
  es.foldl revealStep items

/-- Whether element `i` carries the `visible` marker. -/
def visibleAt (items : List RevealEl) (i : Nat) : Bool :=
  match items[i]? with
  | some el => el.visible
  | none => false

/-- Whether element `i` is watched by the observer. -/
def observedAt (items : List RevealEl) (i : Nat) : Bool :=
  match items[i]? with
  | some el => el.observed
  | none => false

/-- Number of adjacent pairs `(a, b)` of a list of flags. -/
def countSteps (a b : Bool) : List Bool → Nat
  | x :: y :: rest => (if x = a ∧ y = b then 1 else 0) + countSteps a b (y :: rest)
  | _ => 0

/-! ## Tilt cards (`tiltSetup`) and hero phone (`phoneParallaxSetup`) -/

/-- The fields of a `DOMRect` that the script reads. -/
structure Rect where
  left : ℚ
  top : ℚ
  width : ℚ
  height : ℚ
deriving DecidableEq

/-- What `getBoundingClientRect()` answers at one moment: for the tilt element at each
position, and for the `.hero-phone` container. -/
structure Layout where
  tiltRect : Nat → Rect
  phoneRect : Rect

/-- The transform `perspective(900px) rotateX(rx deg) rotateY(ry deg) translateZ(tz px)`. -/
structure TiltTransform where
  rx : ℚ
  ry : ℚ
  tz : ℚ
deriving DecidableEq

/-- A tilt element: the closure variable `rect` (`none` is `null`) and its style. -/
structure TiltEl where
  rect : Option Rect
  transition : String
  transform : Option TiltTransform

/-- The function `updateRect` of the tilt element at position `i`. -/
def updateRect (L : Layout) (i : Nat) (el : TiltEl) : TiltEl :=
  { el with rect := some (L.tiltRect i) }

/-- Apply `f i` to the element at position `i`, for every position from `start` on. -/
def mapIdxFrom {α : Type} (f : Nat → α → α) : Nat → List α → List α
  | _, [] => []
  | start, x :: xs => f start x :: mapIdxFrom f (start + 1) xs

/-- Body of `tiltSetup`: each closure starts with `rect = null` and calls `updateRect`. -/
def tiltSetup (L : Layout) (els : List TiltEl) : List TiltEl :=
  mapIdxFrom (fun i el => updateRect L i { el with rect := none }) 0 els

/-- The `resize` listeners registered by `tiltSetup`, one per element. -/
def tiltResize (L : Layout) (els : List TiltEl) : List TiltEl :=
  mapIdxFrom (fun i el => updateRect L i el) 0 els

/-- The pair `(px, py)` of the tilt `pointermove` listener, for a rectangle of non-zero
width and height (at a zero divisor the script yields `NaN` or an infinity, which
the rationals do not have). -/
def tiltNormalised (rect : Rect) (clientX clientY : ℚ) : ℚ × ℚ :=
  ((clientX - rect.left) / rect.width, (clientY - rect.top) / rect.height)

/-- The rotation `(rx, ry)` of the tilt `pointermove` listener. -/
def tiltRotation (rect : Rect) (clientX clientY : ℚ) : ℚ × ℚ :=
  let px := (tiltNormalised rect clientX clientY).1
  let py := (tiltNormalised rect clientX clientY).2
  let rx := (py - 1 / 2) * (-12)
  let ry := (px - 1 / 2) * 18
  (rx, ry)

/-- The `pointermove` listener of the tilt element at position `i`; `L` is the layout
at the time of the event, read only when `rect` is still `null`. -/
def tiltPointermoveEl (L : Layout) (i : Nat) (clientX clientY : ℚ) (el : TiltEl) : TiltEl :=
  let el₁ := if el.rect.isNone then updateRect L i el else el
  match el₁.rect with
  | none => el₁
  | some rect =>
    let r := tiltRotation rect clientX clientY
    { el₁ with transform := some ⟨r.1, r.2, 6⟩ }

/-- A layer of the hero phone: parsed `data-depth` and the written transform
`translate3d(tx px, ty px, 0) rotateX(rot deg)` as `(tx, ty, rot)`. -/
structure PhoneLayer where
  dataDepth : Option ParsedFloat
  transform : ℚ × ℚ × ℚ

/-- Closure variables of `phoneParallaxSetup`. -/
structure PhoneState where
  rect : Rect
  layers : List PhoneLayer

/-- Body of `phoneParallaxSetup`, given the layers found inside `.hero-phone` (`none`
when there is no such container); `none` is an early return. -/
def phoneParallaxSetup (L : Layout) (phone : Option (List PhoneLayer)) : Option PhoneState :=
  match phone with
  | none => none
  | some layers => if layers.length = 0 then none else some ⟨L.phoneRect, layers⟩

/-- The `resize` listener of `phoneParallaxSetup`. -/
def phoneResize (L : Layout) (p : PhoneState) : PhoneState :=
  { p with rect := L.phoneRect }

/-- The pair `(px, py)` of the phone `mousemove` listener, for a rectangle of non-zero
width and height (at a zero divisor the script yields `NaN` or an infinity, which
the rationals do not have). -/
def phoneNormalised (rect : Rect) (clientX clientY : ℚ) : ℚ × ℚ :=
  ((clientX - rect.left) / rect.width - 1 / 2, (clientY - rect.top) / rect.height - 1 / 2)

/-- The constant `depth` of one iteration of the phone `mousemove` listener. -/
def phoneDepth (layer : PhoneLayer) : ℚ :=
  orDefault
    (match layer.dataDepth with
     | none => ParsedFloat.nan
     | some r => r) (12 / 100)

/-- The `mousemove` listener of `phoneParallaxSetup`. -/
def phoneMousemove (clientX clientY : ℚ) (p : PhoneState) : PhoneState :=
  let px := (phoneNormalised p.rect clientX clientY).1
  let py := (phoneNormalised p.rect clientX clientY).2
  { p with layers := p.layers.map (fun layer =>
      let depth := phoneDepth layer
      let tx := px * depth * 40
      let ty := py * depth * 30
      { layer with transform := (tx, ty, py * 6) }) }

/-- The `mouseleave` listener of `phoneParallaxSetup`. -/
def phoneMouseleave (p : PhoneState) : PhoneState :=
  { p with layers := p.layers.map (fun l => { l with transform := (0, 0, 0) }) }

/-- State of the two modules that cache geometry. -/
structure GeomState where
  tiltEls : List TiltEl
  phone : Option PhoneState

/-- Events handled by the two modules.  Pointer events carry the position of their
target among the tilt elements. -/
inductive GeomEvent where
  | resize (L : Layout)
  | pointerenter (i : Nat)
  | pointerleave (i : Nat)
  | pointermove (L : Layout) (i : Nat) (clientX clientY : ℚ)
  | pointerout (i : Nat)
  | phoneMousemove (clientX clientY : ℚ)
  | phoneMouseleave

/-- Whether an event is a `resize`. -/
def GeomEvent.isResize : GeomEvent → Bool
  | .resize _ => true
  | _ => false

/-- One event of the two modules. -/
def geomStep (s : GeomState) : GeomEvent → GeomState
  | .resize L => { tiltEls := tiltResize L s.tiltEls, phone := s.phone.map (phoneResize L) }
  | .pointerenter i =>
    let enter := fun (el : TiltEl) =>
      { el with transition := "transform .18s cubic-bezier(.2,.9,.25,1)" }
    { s with tiltEls := modifyAt enter i s.tiltEls }
  | .pointerleave i =>
    let leave := fun (el : TiltEl) =>
      { el with transition := "transform .5s cubic-bezier(.18,.85,.32,1)" }
    { s with tiltEls := modifyAt leave i s.tiltEls }
  | .pointermove L i x y =>
    { s with tiltEls := modifyAt (tiltPointermoveEl L i x y) i s.tiltEls }
  | .pointerout i =>
    let out := fun (el : TiltEl) => { el with transform := some ⟨0, 0, 0⟩ }
    { s with tiltEls := modifyAt out i s.tiltEls }
  | .phoneMousemove x y => { s with phone := s.phone.map (phoneMousemove x y) }
  | .phoneMouseleave => { s with phone := s.phone.map phoneMouseleave }

/-- The state reached after a sequence of events. -/
def geomRun (s : GeomState) (es : List GeomEvent) : GeomState :=
  es.foldl geomStep s

/-- Every cached rectangle is the one the layout `L` gives. -/
def CachedFrom (L : Layout) (s : GeomState) : Prop :=
  (∀ i el, s.tiltEls[i]? = some el → el.rect = some (L.tiltRect i)) ∧
  (∀ p, s.phone = some p → p.rect = L.phoneRect)

/-! ## Form stub (`formSetup`) -/

/-- An element of class `form-feedback`: whether it lies inside `#contact`, its `role`
attribute, its `margin-top` and its text. -/
structure FeedbackEl where
  inContact : Bool
  role : Option String
  marginTop : Option String
  text : String
deriving DecidableEq

/-- The document as the submit handler sees it: the text of the submit button of
`.contact-form` (`none` when there is none), the `form-feedback` elements in document
order, whether the form lies inside `#contact`, the current and the default values of
the form controls, and the closures of the timers still pending, oldest first (each
holds the captured `txt`, `none` being `null`). -/
structure FormState where
  btnText : Option String
  feedback : List FeedbackEl
  formInContact : Bool
  fieldValues : List String
  fieldDefaults : List String
  pending : List (Option String)

/-- The text written into a region that the callback creates. -/
def createdText : String := "Mensagem enviada — obrigado! Entraremos em contato em até 48h."

/-- The text written into a region that the callback finds. -/
def foundText : String := "Mensagem enviada — obrigado!"

/-- The `submit` listener of `formSetup`, up to and including the `setTimeout` call. -/
def submitHandler (s : FormState) : FormState :=
  let txt := s.btnText
  { s with
    btnText := s.btnText.map (fun _ => "Enviando...")
    pending := s.pending ++ [txt] }

/-- The call `document.querySelector('#contact .form-feedback')`. -/
def queryRegion (s : FormState) : Option FeedbackEl :=
  s.feedback.find? (fun n => n.inContact)

/-- The element built in the branch `if(!region)`, appended to the form. -/
def createdRegion (s : FormState) : FeedbackEl :=
  { inContact := s.formInContact
    role := some "status"
    marginTop := some "12px"
    text := createdText }

/-- Write `txt` into the first element lying inside `#contact`. -/
def setRegionText (txt : String) : List FeedbackEl → List FeedbackEl
  | [] => []
  | n :: ns => if n.inContact then { n with text := txt } :: ns else n :: setRegionText txt ns

/-- The variable `region` at the end of the timer callback. -/
def timeoutRegion (s : FormState) : FeedbackEl :=
  match queryRegion s with
  | none => createdRegion s
  | some n => { n with text := foundText }

/-- The callback passed to `setTimeout(..., 800)`, with the captured `txt`; the captured
`btn` is the submit button of the state. -/
def submitTimeout (txt : Option String) (s : FormState) : FormState :=
  let btnText :=
    match s.btnText with
    | some _ => some (txt.getD "")
    | none => none
  let feedback :=
    match queryRegion s with
    | none => s.feedback ++ [createdRegion s]
    | some _ => setRegionText foundText s.feedback
  { s with btnText := btnText, feedback := feedback, fieldValues := s.fieldDefaults }

/-- Events of the form: the user edits the controls, submits, or the oldest pending
timer fires (all timers have the same delay, so they fire in the order of their
creation). -/
inductive FormEvent where
  | input (values : List String)
  | submit
  | timeout
deriving DecidableEq

/-- One event of the form. -/
def formStep (s : FormState) : FormEvent → FormState
  | .input values => { s with fieldValues := values }
  | .submit => submitHandler s
  | .timeout =>
    match s.pending with
    | [] => s
    | txt :: rest => submitTimeout txt { s with pending := rest }

/-- The state reached after a sequence of form events. -/
def formRun (s : FormState) (es : List FormEvent) : FormState :=
  es.foldl formStep s

/-- Let every pending timer fire, oldest first. -/
def formDrain (s : FormState) : FormState :=
  s.pending.foldl (fun st txt => submitTimeout txt st) { s with pending := [] }

/-! ## Theorems -/

/-- Transforms written by one pass, in closed form over the fields of `window`. -/
theorem applyParallax_transforms (w : Window) (s : ParallaxState) :
    (applyParallax w s).parallaxEls.map (fun el => el.transform) =
      s.parallaxEls.map (fun el =>
        (30 * depthOf el * s.mouseX,
         24 * depthOf el * s.mouseY +
           (12 / 100) * depthOf el * (if w.scrollY = 0 then w.pageYOffset else w.scrollY))) := by
  simp only [applyParallax, List.map_map]
  apply List.map_congr_left
  intro el _
  simp only [Function.comp, parallaxOffset, frameScrollY, numOr, Prod.mk.injEq]
  constructor <;> ring

/-- C1: one pass of applyParallax sets every registered element's translation to
(30*d*mouseX, 24*d*mouseY + 0.12*d*scrollY), where scrollY is window.scrollY (or
window.pageYOffset when that is 0; the two agree in a browser) and d is the element's
effective depth (the parsed data-depth, or 0.06 when that is NaN or 0); the pass
changes neither the pointer state nor the attributes; equal pointer state, scroll
offset and depths give equal translations; and for a fixed depth the offset is
additive and homogeneous in (mouseX, mouseY, scrollY). -/
theorem applyParallax_linear :
    (∀ (w : Window) (s : ParallaxState),
      (applyParallax w s).parallaxEls.map (fun el => el.transform) =
        s.parallaxEls.map (fun el =>
          (30 * depthOf el * s.mouseX,
           24 * depthOf el * s.mouseY +
             (12 / 100) * depthOf el *
               (if w.scrollY = 0 then w.pageYOffset else w.scrollY)))) ∧
    (∀ (w : Window) (s : ParallaxState), w.pageYOffset = w.scrollY →
      (applyParallax w s).parallaxEls.map (fun el => el.transform) =
        s.parallaxEls.map (fun el =>
          (30 * depthOf el * s.mouseX,
           24 * depthOf el * s.mouseY + (12 / 100) * depthOf el * w.scrollY))) ∧
    (∀ (w : Window) (s : ParallaxState),
      (applyParallax w s).mouseX = s.mouseX ∧ (applyParallax w s).mouseY = s.mouseY ∧
      (applyParallax w s).ww = s.ww ∧ (applyParallax w s).wh = s.wh ∧
      (applyParallax w s).parallaxEls.map (fun el => el.dataDepth) =
        s.parallaxEls.map (fun el => el.dataDepth)) ∧
    (∀ (t : ℚ × ℚ) (d : ℚ),
      depthOf ⟨some (.num d), t⟩ = (if d = 0 then 6 / 100 else d) ∧
      depthOf ⟨some .nan, t⟩ = 6 / 100 ∧ depthOf ⟨none, t⟩ = 6 / 100) ∧
    (∀ (w₁ w₂ : Window) (s₁ s₂ : ParallaxState),
      s₁.mouseX = s₂.mouseX → s₁.mouseY = s₂.mouseY →
      w₁.scrollY = w₂.scrollY → w₁.pageYOffset = w₂.pageYOffset →
      s₁.parallaxEls.map depthOf = s₂.parallaxEls.map depthOf →
      (applyParallax w₁ s₁).parallaxEls.map (fun el => el.transform) =
        (applyParallax w₂ s₂).parallaxEls.map (fun el => el.transform)) ∧
    (∀ d x y z : ℚ,
      parallaxOffset x y z d = (30 * d * x, 24 * d * y + (12 / 100) * d * z)) ∧
    (∀ d x₁ y₁ z₁ x₂ y₂ z₂ : ℚ,
      parallaxOffset (x₁ + x₂) (y₁ + y₂) (z₁ + z₂) d =
        parallaxOffset x₁ y₁ z₁ d + parallaxOffset x₂ y₂ z₂ d) ∧
    (∀ d c x y z : ℚ,
      parallaxOffset (c * x) (c * y) (c * z) d = c • parallaxOffset x y z d) := by
  refine ⟨applyParallax_transforms, ?_, ?_, ?_, ?_, ?_, ?_, ?_⟩
  · intro w s hw
    rw [applyParallax_transforms, hw]
    simp
  · intro w s
    refine ⟨rfl, rfl, rfl, rfl, ?_⟩
    simp [applyParallax, Function.comp]
  · intro t d
    refine ⟨?_, ?_, ?_⟩ <;> simp [depthOf, parseDepth, orDefault]
  · intro w₁ w₂ s₁ s₂ hx hy hz hp hd
    have key : ∀ (w : Window) (s : ParallaxState),
        (applyParallax w s).parallaxEls.map (fun el => el.transform) =
          (s.parallaxEls.map depthOf).map (fun d =>
            parallaxOffset s.mouseX s.mouseY
              (if w.scrollY = 0 then w.pageYOffset else w.scrollY) d) := by
      intro w s
      simp [applyParallax, frameScrollY, numOr, List.map_map, Function.comp]
    rw [key, key, hx, hy, hz, hp, hd]
  · intro d x y z
    simp only [parallaxOffset, Prod.mk.injEq]
    constructor <;> ring
  · intro d x₁ y₁ z₁ x₂ y₂ z₂
    simp only [parallaxOffset, Prod.mk_add_mk, Prod.mk.injEq]
    constructor <;> ring
  · intro d c x y z
    simp only [parallaxOffset, Prod.smul_mk, smul_eq_mul, Prod.mk.injEq]
    constructor <;> ring

/-- C8: with cached viewport size ww, wh > 0, a mousemove at 0 ≤ clientX ≤ ww and
0 ≤ clientY ≤ wh stores mouseX and mouseY in [-1, 1]; the stored mouseX is -1 at
clientX = 0, 0 at clientX = ww/2 and 1 at clientX = ww, and likewise for mouseY. -/
theorem parallaxMousemove_range (s : ParallaxState) (hw : 0 < s.ww) (hh : 0 < s.wh) :
    (∀ x y : ℚ, 0 ≤ x → x ≤ s.ww → 0 ≤ y → y ≤ s.wh →
      -1 ≤ (parallaxMousemove x y s).mouseX ∧ (parallaxMousemove x y s).mouseX ≤ 1 ∧
      -1 ≤ (parallaxMousemove x y s).mouseY ∧ (parallaxMousemove x y s).mouseY ≤ 1) ∧
    (∀ y : ℚ, (parallaxMousemove 0 y s).mouseX = -1 ∧
      (parallaxMousemove (s.ww / 2) y s).mouseX = 0 ∧
      (parallaxMousemove s.ww y s).mouseX = 1) ∧
    (∀ x : ℚ, (parallaxMousemove x 0 s).mouseY = -1 ∧
      (parallaxMousemove x (s.wh / 2) s).mouseY = 0 ∧
      (parallaxMousemove x s.wh s).mouseY = 1) := by
  have hw0 : s.ww ≠ 0 := ne_of_gt hw
  have hh0 : s.wh ≠ 0 := ne_of_gt hh
  refine ⟨?_, ?_, ?_⟩
  · intro x y hx0 hx1 hy0 hy1
    have h1 : 0 ≤ x / s.ww := div_nonneg hx0 (le_of_lt hw)
    have h2 : x / s.ww ≤ 1 := (div_le_one hw).mpr hx1
    have h3 : 0 ≤ y / s.wh := div_nonneg hy0 (le_of_lt hh)
    have h4 : y / s.wh ≤ 1 := (div_le_one hh).mpr hy1
    simp only [parallaxMousemove]
    refine ⟨by linarith, by linarith, by linarith, by linarith⟩
  · intro y
    simp only [parallaxMousemove]
    refine ⟨by simp, ?_, ?_⟩
    · field_simp; ring
    · rw [div_self hw0]; norm_num
  · intro x
    simp only [parallaxMousemove]
    refine ⟨by simp, ?_, ?_⟩
    · field_simp; ring
    · rw [div_self hh0]; norm_num

/-- Witness of C8 on a 1000 by 800 viewport. -/
theorem parallaxMousemove_range_witness :
    (∀ x y : ℚ, 0 ≤ x → x ≤ 1000 → 0 ≤ y → y ≤ 800 →
      -1 ≤ (parallaxMousemove x y ⟨0, 0, 1000, 800, []⟩).mouseX ∧
      (parallaxMousemove x y ⟨0, 0, 1000, 800, []⟩).mouseX ≤ 1 ∧
      -1 ≤ (parallaxMousemove x y ⟨0, 0, 1000, 800, []⟩).mouseY ∧
      (parallaxMousemove x y ⟨0, 0, 1000, 800, []⟩).mouseY ≤ 1) ∧
    (parallaxMousemove 500 400 ⟨0, 0, 1000, 800, []⟩).mouseX = 0 :=
  ⟨(parallaxMousemove_range ⟨0, 0, 1000, 800, []⟩ (by norm_num) (by norm_num)).1,
   by norm_num [parallaxMousemove]⟩

/-- A data-depth attribute that parses to a non-zero number is the coefficient. -/
theorem depthOf_nonzero (d : ℚ) (t : ℚ × ℚ) (hd : d ≠ 0) :
    depthOf ⟨some (.num d), t⟩ = d := by
  simp [depthOf, parseDepth, orDefault, hd]

/-- C9: an element whose data-depth attribute parses to the number 0 is given the
coefficient 0.06, not 0, and one pass of applyParallax with the pointer at the right
edge displaces it by 1.8 px. -/
theorem depthOf_zero_uses_default :
    depthOf ⟨some (.num 0), (0, 0)⟩ = 6 / 100 ∧
    (applyParallax ⟨1000, 800, 0, 0⟩
        ⟨1, 0, 1000, 800, [⟨some (.num 0), (0, 0)⟩]⟩).parallaxEls.map
      (fun el => el.transform) = [(9 / 5, 0)] := by
  constructor
  · simp [depthOf, parseDepth, orDefault]
  · simp [applyParallax, depthOf, parseDepth, orDefault, parallaxOffset, frameScrollY, numOr]
    norm_num

/-- C5: a pointermove at the exact centre of a cached rectangle of positive width and
height computes rx = 0 and ry = 0, and the handler writes rotateX(0deg) rotateY(0deg)
(with translateZ(6px)). -/
theorem tilt_centre_neutral (L : Layout) (i : Nat) (el : TiltEl) (rect : Rect)
    (hrect : el.rect = some rect) (hw : 0 < rect.width) (hh : 0 < rect.height) :
    tiltRotation rect (rect.left + rect.width / 2) (rect.top + rect.height / 2) = (0, 0) ∧
    (tiltPointermoveEl L i (rect.left + rect.width / 2) (rect.top + rect.height / 2)
      el).transform = some ⟨0, 0, 6⟩ := by
  have hw0 : rect.width ≠ 0 := ne_of_gt hw
  have hh0 : rect.height ≠ 0 := ne_of_gt hh
  have hrot : tiltRotation rect (rect.left + rect.width / 2)
      (rect.top + rect.height / 2) = (0, 0) := by
    simp only [tiltRotation, tiltNormalised, Prod.mk.injEq]
    constructor
    · field_simp; ring
    · field_simp; ring
  refine ⟨hrot, ?_⟩
  simp only [tiltPointermoveEl, hrect, Option.isNone_some, Bool.false_eq_true, if_false]
  rw [hrot]

/-- Witness of C5 on the rectangle with corner (10, 20), width 200 and height 100. -/
theorem tilt_centre_neutral_witness :
    tiltRotation ⟨10, 20, 200, 100⟩ (10 + 200 / 2) (20 + 100 / 2) = (0, 0) ∧
    (tiltPointermoveEl ⟨fun _ => ⟨0, 0, 1, 1⟩, ⟨0, 0, 1, 1⟩⟩ 0 (10 + 200 / 2) (20 + 100 / 2)
      ⟨some ⟨10, 20, 200, 100⟩, "", none⟩).transform = some ⟨0, 0, 6⟩ :=
  tilt_centre_neutral ⟨fun _ => ⟨0, 0, 1, 1⟩, ⟨0, 0, 1, 1⟩⟩ 0
    ⟨some ⟨10, 20, 200, 100⟩, "", none⟩ ⟨10, 20, 200, 100⟩ rfl (by norm_num) (by norm_num)

/-- Every state reached from a mousemove at `t0` by polls alone still records `t0` and
is either shown with opacity 1 or hidden with opacity 0. -/
theorem glowPolls_invariant (t0 : Int) (times : List Int) (s : GlowState)
    (h0 : s.lastMove = t0)
    (h1 : (s.visible = true ∧ s.opacity = "1") ∨ (s.visible = false ∧ s.opacity = "0")) :
    (glowPolls times s).lastMove = t0 ∧
    (((glowPolls times s).visible = true ∧ (glowPolls times s).opacity = "1") ∨
      ((glowPolls times s).visible = false ∧ (glowPolls times s).opacity = "0")) := by
  induction times generalizing s with
  | nil => exact ⟨h0, h1⟩
  | cons t ts ih =>
    simp only [glowPolls, List.foldl_cons]
    apply ih
    · unfold glowPoll
      split
      · exact h0
      · split <;> simp [h0]
    · unfold glowPoll
      split
      · exact h1
      · split
        · right; simp
        · exact h1

/-- C4: if the last pointer movement happened at t0 and only polls follow, the poll
executed at any time t with t - t0 > 900 leaves the glow hidden (visible = false,
opacity 0); and for an interval timer created at any time setup ≤ t0, one of its
firings setup + 300*k (k ≥ 1) falls in (t0 + 900, t0 + 1200] and leaves the glow
hidden. -/
theorem glow_hidden_within_poll (s : GlowState) (w : Window) (x y : ℚ) (t0 : Int)
    (polls : List Int) (t : Int) (ht : t - t0 > 900) (setup : Int) (hs : setup ≤ t0) :
    ((glowPoll t (glowPolls polls (glowMousemove t0 w x y s))).visible = false ∧
      (glowPoll t (glowPolls polls (glowMousemove t0 w x y s))).opacity = "0") ∧
    (∃ k : Nat, 1 ≤ k ∧ t0 + 900 < pollTime setup k ∧ pollTime setup k ≤ t0 + 1200 ∧
      (glowPoll (pollTime setup k)
        (glowPolls polls (glowMousemove t0 w x y s))).visible = false ∧
      (glowPoll (pollTime setup k)
        (glowPolls polls (glowMousemove t0 w x y s))).opacity = "0") := by
  have inv := glowPolls_invariant t0 polls (glowMousemove t0 w x y s) rfl
    (Or.inl ⟨rfl, rfl⟩)
  have hide : ∀ u : Int, u - t0 > 900 →
      (glowPoll u (glowPolls polls (glowMousemove t0 w x y s))).visible = false ∧
      (glowPoll u (glowPolls polls (glowMousemove t0 w x y s))).opacity = "0" := by
    intro u hu
    obtain ⟨hl, hv⟩ := inv
    unfold glowPoll
    rcases hv with ⟨hv, _⟩ | ⟨hv, ho⟩
    · simp [hv, hl, hu]
    · simp [hv, ho]
  refine ⟨hide t ht, ?_⟩
  have hq : 0 ≤ (t0 + 1200 - setup) / 300 := Int.ediv_nonneg (by omega) (by norm_num)
  refine ⟨((t0 + 1200 - setup) / 300).toNat, ?_, ?_, ?_, ?_⟩
  · have : 1 ≤ (t0 + 1200 - setup) / 300 := by omega
    omega
  · simp only [pollTime, Int.toNat_of_nonneg hq]
    omega
  · simp only [pollTime, Int.toNat_of_nonneg hq]
    omega
  · apply hide
    simp only [pollTime, Int.toNat_of_nonneg hq]
    omega

/-- Witness of C4: movement at 1000 ms, timer created at 0 ms, one poll at 1200 ms in
between, checked poll at 2000 ms. -/
theorem glow_hidden_within_poll_witness :
    ((glowPoll 2000 (glowPolls [1200]
        (glowMousemove 1000 ⟨1000, 800, 0, 0⟩ 5 5 ⟨0, false, "", 0, 0, 0, 0, ""⟩))).visible
        = false ∧
      (glowPoll 2000 (glowPolls [1200]
        (glowMousemove 1000 ⟨1000, 800, 0, 0⟩ 5 5 ⟨0, false, "", 0, 0, 0, 0, ""⟩))).opacity
        = "0") ∧
    (∃ k : Nat, 1 ≤ k ∧ (1000 : Int) + 900 < pollTime 0 k ∧ pollTime 0 k ≤ 1000 + 1200 ∧
      (glowPoll (pollTime 0 k) (glowPolls [1200]
        (glowMousemove 1000 ⟨1000, 800, 0, 0⟩ 5 5 ⟨0, false, "", 0, 0, 0, 0, ""⟩))).visible
        = false ∧
      (glowPoll (pollTime 0 k) (glowPolls [1200]
        (glowMousemove 1000 ⟨1000, 800, 0, 0⟩ 5 5 ⟨0, false, "", 0, 0, 0, 0, ""⟩))).opacity
        = "0") :=
  glow_hidden_within_poll ⟨0, false, "", 0, 0, 0, 0, ""⟩ ⟨1000, 800, 0, 0⟩ 5 5 1000 [1200]
    2000 (by decide) 0 (by decide)

/-- Reading position `i` after `modifyAt f j`. -/
theorem getElem?_modifyAt {α : Type} (f : α → α) (j i : Nat) (l : List α) :
    (modifyAt f j l)[i]? = if i = j then l[i]?.map f else l[i]? := by
  induction l generalizing i j with
  | nil => cases j <;> simp [modifyAt]
  | cons x xs ih =>
    cases j with
    | zero =>
      cases i with
      | zero => simp [modifyAt]
      | succ i => simp [modifyAt]
    | succ j =>
      cases i with
      | zero => simp [modifyAt]
      | succ i => simp [modifyAt, ih]

/-- The observer callback never removes the `visible` marker. -/
theorem visibleAt_revealCallback (entries : List Entry) (items : List RevealEl) (i : Nat)
    (h : visibleAt items i = true) : visibleAt (revealCallback entries items) i = true := by
  induction entries generalizing items with
  | nil => exact h
  | cons ent ents ih =>
    simp only [revealCallback, List.foldl_cons]
    apply ih
    split
    · unfold visibleAt at h ⊢
      rw [getElem?_modifyAt]
      by_cases hij : i = ent.target
      · rw [if_pos hij]
        revert h
        cases items[i]? with
        | none => simp
        | some el => simp
      · rw [if_neg hij]
        exact h
    · exact h

/-- The first check of `init` never removes the `visible` marker. -/
theorem visibleAt_initialRevealCheck (w : Window) (items : List RevealEl) (i : Nat)
    (h : visibleAt items i = true) : visibleAt (initialRevealCheck w items) i = true := by
  unfold visibleAt at h ⊢
  simp only [initialRevealCheck, List.getElem?_map]
  revert h
  cases items[i]? with
  | none => simp
  | some el =>
    intro h
    simp only [Option.map_some']
    split
    · rfl
    · exact h

/-- No single event removes the `visible` marker. -/
theorem visibleAt_revealStep (e : RevealEvent) (items : List RevealEl) (i : Nat)
    (h : visibleAt items i = true) : visibleAt (revealStep items e) i = true := by
  cases e with
  | callback entries => exact visibleAt_revealCallback entries items i h
  | initialCheck w => exact visibleAt_initialRevealCheck w items i h

/-- No sequence of events removes the `visible` marker. -/
theorem visibleAt_revealRun (es : List RevealEvent) (items : List RevealEl) (i : Nat)
    (h : visibleAt items i = true) : visibleAt (revealRun items es) i = true := by
  induction es generalizing items with
  | nil => exact h
  | cons e es ih =>
    simp only [revealRun, List.foldl_cons]
    exact ih _ (visibleAt_revealStep e items i h)

/-- The trace of a run starts with the initial state. -/
theorem revealTrace_eq_cons (items : List RevealEl) (es : List RevealEvent) :
    ∃ rest, revealTrace items es = items :: rest := by
  cases es with
  | nil => exact ⟨[], rfl⟩
  | cons e es => exact ⟨_, rfl⟩

/-- From a state where the element is visible, it is visible all along the trace. -/
theorem revealTrace_all_visible (es : List RevealEvent) (items : List RevealEl) (i : Nat)
    (h : visibleAt items i = true) :
    ∀ b ∈ (revealTrace items es).map (fun st => visibleAt st i), b = true := by
  induction es generalizing items with
  | nil => simp [revealTrace, h]
  | cons e es ih =>
    intro b hb
    simp only [revealTrace, List.map_cons, List.mem_cons] at hb
    rcases hb with hb | hb
    · rw [hb, h]
    · exact ih _ (visibleAt_revealStep e items i h) b hb

/-- A list of flags that are all set has no step from or to an unset flag. -/
theorem countSteps_all_true (a b : Bool) (hab : a = false ∨ b = false) (l : List Bool)
    (h : ∀ x ∈ l, x = true) : countSteps a b l = 0 := by
  induction l with
  | nil => rfl
  | cons x xs ih =>
    cases xs with
    | nil => rfl
    | cons y ys =>
      have hx : x = true := h x (by simp)
      have hy : y = true := h y (by simp)
      have hrest : ∀ z ∈ y :: ys, z = true := fun z hz => h z (List.mem_cons_of_mem _ hz)
      simp only [countSteps, ih hrest, add_zero]
      subst hx hy
      rcases hab with rfl | rfl <;> simp

/-- C2: for every sequence of observer callbacks (with any entries) and initial
above-the-fold checks, an element that is visible stays visible in the state reached;
along the whole trace the visible flag of an element steps from hidden to revealed at
most once and never from revealed to hidden. -/
theorem reveal_never_reverts (items : List RevealEl) (es : List RevealEvent) (i : Nat) :
    (visibleAt items i = true → visibleAt (revealRun items es) i = true) ∧
    countSteps false true ((revealTrace items es).map (fun st => visibleAt st i)) ≤ 1 ∧
    countSteps true false ((revealTrace items es).map (fun st => visibleAt st i)) = 0 := by
  refine ⟨visibleAt_revealRun es items i, ?_⟩
  induction es generalizing items with
  | nil => simp [revealTrace, countSteps]
  | cons e es ih =>
    obtain ⟨rest, hrest⟩ := revealTrace_eq_cons (revealStep items e) es
    have ih2 := ih (revealStep items e)
    have hall := revealTrace_all_visible es (revealStep items e) i
    rw [hrest] at ih2 hall
    simp only [revealTrace, hrest, List.map_cons, countSteps] at ih2 hall ⊢
    cases hv : visibleAt items i with
    | true =>
      have hv2 := visibleAt_revealStep e items i hv
      have h0 := countSteps_all_true false true (Or.inl rfl) _ (hall hv2)
      have h1 := countSteps_all_true true false (Or.inr rfl) _ (hall hv2)
      simp only [List.map_cons] at h0 h1
      rw [hv2] at h0 h1 ⊢
      simp [h0, h1]
    | false =>
      cases hv2 : visibleAt (revealStep items e) i with
      | true =>
        have h0 := countSteps_all_true false true (Or.inl rfl) _ (hall hv2)
        have h1 := countSteps_all_true true false (Or.inr rfl) _ (hall hv2)
        simp only [List.map_cons] at h0 h1
        rw [hv2] at h0 h1
        simp [h0, h1]
      | false =>
        rw [hv2] at ih2
        simpa using ih2

/-- Witness of C2: a visible element, a callback reporting it as not intersecting and
a first check with an empty viewport. -/
theorem reveal_never_reverts_witness :
    visibleAt [⟨true, true, 5000⟩] 0 = true ∧
    visibleAt (revealRun [⟨true, true, 5000⟩]
      [.callback [⟨0, false⟩], .initialCheck ⟨0, 0, 0, 0⟩]) 0 = true :=
  ⟨rfl, (reveal_never_reverts [⟨true, true, 5000⟩]
    [.callback [⟨0, false⟩], .initialCheck ⟨0, 0, 0, 0⟩] 0).1 rfl⟩

/-- C3: after init() on a page whose single reveal element lies above the viewport
(top = -2000 in a viewport 800 px high), and after the observer has reported it as not
intersecting, the element is revealed and still observed. -/
theorem init_revealed_still_observed :
    visibleAt (revealRun (init ⟨1000, 800, 0, 0⟩ [⟨false, false, -2000⟩])
      [.callback [⟨0, false⟩]]) 0 = true ∧
    observedAt (revealRun (init ⟨1000, 800, 0, 0⟩ [⟨false, false, -2000⟩])
      [.callback [⟨0, false⟩]]) 0 = true := by
  constructor
  · simp [revealRun, revealStep, revealCallback, init, revealSetup, initialRevealCheck,
      visibleAt]
    norm_num
  · simp [revealRun, revealStep, revealCallback, init, revealSetup, initialRevealCheck,
      observedAt]
    split <;> rfl

/-- Reading position `i` after `mapIdxFrom f start`. -/
theorem getElem?_mapIdxFrom {α : Type} (f : Nat → α → α) (start i : Nat) (l : List α) :
    (mapIdxFrom f start l)[i]? = l[i]?.map (f (start + i)) := by
  induction l generalizing start i with
  | nil => simp [mapIdxFrom]
  | cons x xs ih =>
    cases i with
    | zero => simp [mapIdxFrom]
    | succ i =>
      simp only [mapIdxFrom, List.getElem?_cons_succ, ih]
      have e : start + 1 + i = start + (i + 1) := by omega
      rw [e]

/-- A `resize` event caches the rectangles of its layout. -/
theorem cachedFrom_resize (L : Layout) (s : GeomState) :
    CachedFrom L (geomStep s (.resize L)) := by
  constructor
  · intro i el h
    simp only [geomStep, tiltResize, getElem?_mapIdxFrom, Nat.zero_add] at h
    cases hit : s.tiltEls[i]? with
    | none => rw [hit] at h; simp at h
    | some el0 =>
      rw [hit] at h
      simp only [Option.map_some', Option.some.injEq] at h
      rw [← h]
      rfl
  · intro p h
    simp only [geomStep] at h
    cases hp : s.phone with
    | none => rw [hp] at h; simp at h
    | some p0 =>
      rw [hp] at h
      simp only [Option.map_some', Option.some.injEq] at h
      rw [← h]
      rfl

/-- An update of one tilt element that keeps `rect` keeps the cached rectangles. -/
theorem cachedFrom_modifyAt (L : Layout) (s : GeomState) (f : TiltEl → TiltEl) (j : Nat)
    (hf : ∀ el, el.rect = some (L.tiltRect j) → (f el).rect = some (L.tiltRect j))
    (h : CachedFrom L s) : CachedFrom L { s with tiltEls := modifyAt f j s.tiltEls } := by
  refine ⟨?_, h.2⟩
  intro i el hi
  simp only [getElem?_modifyAt] at hi
  by_cases hij : i = j
  · rw [if_pos hij] at hi
    cases hit : s.tiltEls[i]? with
    | none => rw [hit] at hi; simp at hi
    | some el0 =>
      rw [hit] at hi
      simp only [Option.map_some', Option.some.injEq] at hi
      have h0 := h.1 i el0 hit
      rw [← hi, hij]
      rw [hij] at h0
      exact hf el0 h0
  · rw [if_neg hij] at hi
    exact h.1 i el hi

/-- An update of the phone state that keeps `rect` keeps the cached rectangles. -/
theorem cachedFrom_phone (L : Layout) (s : GeomState) (f : PhoneState → PhoneState)
    (hf : ∀ p, (f p).rect = p.rect)
    (h : CachedFrom L s) : CachedFrom L { s with phone := s.phone.map f } := by
  refine ⟨h.1, ?_⟩
  intro p hp
  cases hp0 : s.phone with
  | none => simp [hp0] at hp
  | some p0 =>
    simp only [hp0, Option.map_some', Option.some.injEq] at hp
    rw [← hp, hf]
    exact h.2 p0 hp0

/-- The tilt `pointermove` listener on an element whose `rect` is cached. -/
theorem tiltPointermoveEl_cached (L : Layout) (i : Nat) (x y : ℚ) (el : TiltEl) (r : Rect)
    (h : el.rect = some r) :
    tiltPointermoveEl L i x y el =
      { el with transform := some ⟨(tiltRotation r x y).1, (tiltRotation r x y).2, 6⟩ } := by
  simp [tiltPointermoveEl, h]

/-- No event other than `resize` changes a cached rectangle. -/
theorem cachedFrom_step (L : Layout) (s : GeomState) (e : GeomEvent)
    (he : e.isResize = false) (h : CachedFrom L s) : CachedFrom L (geomStep s e) := by
  cases e with
  | resize L1 => simp [GeomEvent.isResize] at he
  | pointerenter i => exact cachedFrom_modifyAt L s _ i (fun _ hr => hr) h
  | pointerleave i => exact cachedFrom_modifyAt L s _ i (fun _ hr => hr) h
  | pointermove L1 i x y =>
    apply cachedFrom_modifyAt L s _ i _ h
    intro el hr
    rw [tiltPointermoveEl_cached L1 i x y el _ hr]
    exact hr
  | pointerout i => exact cachedFrom_modifyAt L s _ i (fun _ hr => hr) h
  | phoneMousemove x y => exact cachedFrom_phone L s _ (fun _ => rfl) h
  | phoneMouseleave => exact cachedFrom_phone L s _ (fun _ => rfl) h

/-- No sequence of events without a `resize` changes a cached rectangle. -/
theorem cachedFrom_run (L : Layout) (es : List GeomEvent) (s : GeomState)
    (hes : ∀ e ∈ es, GeomEvent.isResize e = false) (h : CachedFrom L s) :
    CachedFrom L (geomRun s es) := by
  induction es generalizing s with
  | nil => exact h
  | cons e es ih =>
    simp only [geomRun, List.foldl_cons]
    exact ih _ (fun e1 h1 => hes e1 (List.mem_cons_of_mem _ h1))
      (cachedFrom_step L s e (hes e (List.mem_cons_self _ _)) h)

/-- Updating one position keeps the length. -/
theorem length_modifyAt {α : Type} (f : α → α) (j : Nat) (l : List α) :
    (modifyAt f j l).length = l.length := by
  induction l generalizing j with
  | nil => cases j <;> rfl
  | cons x xs ih =>
    cases j with
    | zero => rfl
    | succ j => simp [modifyAt, ih]

/-- Updating every position keeps the length. -/
theorem length_mapIdxFrom {α : Type} (f : Nat → α → α) (start : Nat) (l : List α) :
    (mapIdxFrom f start l).length = l.length := by
  induction l generalizing start with
  | nil => rfl
  | cons x xs ih => simp [mapIdxFrom, ih]

/-- No event adds or removes a tilt element, the phone state, or a layer of the phone,
and none changes the `data-depth` of a layer. -/
theorem geomStep_shape (s : GeomState) (e : GeomEvent) :
    (geomStep s e).tiltEls.length = s.tiltEls.length ∧
    (geomStep s e).phone.map (fun p => p.layers.map (fun l => l.dataDepth)) =
      s.phone.map (fun p => p.layers.map (fun l => l.dataDepth)) := by
  cases e with
  | resize L1 =>
    refine ⟨by simp [geomStep, tiltResize, length_mapIdxFrom], ?_⟩
    cases hp : s.phone <;> simp [geomStep, hp, phoneResize]
  | pointerenter i => exact ⟨by simp [geomStep, length_modifyAt], rfl⟩
  | pointerleave i => exact ⟨by simp [geomStep, length_modifyAt], rfl⟩
  | pointermove L1 i x y => exact ⟨by simp [geomStep, length_modifyAt], rfl⟩
  | pointerout i => exact ⟨by simp [geomStep, length_modifyAt], rfl⟩
  | phoneMousemove x y =>
    refine ⟨rfl, ?_⟩
    cases hp : s.phone <;> simp [geomStep, hp, phoneMousemove, Function.comp]
  | phoneMouseleave =>
    refine ⟨rfl, ?_⟩
    cases hp : s.phone <;> simp [geomStep, hp, phoneMouseleave, Function.comp]

/-- No sequence of events adds or removes a tilt element, the phone state, or a layer of
the phone, and none changes the `data-depth` of a layer. -/
theorem geomRun_shape (es : List GeomEvent) (s : GeomState) :
    (geomRun s es).tiltEls.length = s.tiltEls.length ∧
    (geomRun s es).phone.map (fun p => p.layers.map (fun l => l.dataDepth)) =
      s.phone.map (fun p => p.layers.map (fun l => l.dataDepth)) := by
  induction es generalizing s with
  | nil => exact ⟨rfl, rfl⟩
  | cons e es ih =>
    simp only [geomRun, List.foldl_cons]
    have h1 := ih (geomStep s e)
    have h2 := geomStep_shape s e
    simp only [geomRun] at h1
    exact ⟨h1.1.trans h2.1, h1.2.trans h2.2⟩

/-- C7: after a resize event with layout L, and any further events that are not a
resize, every tilt element of the page is still there and its cached rectangle is the
one L gives, and so is the hero-phone container with all its layers; where that
rectangle has non-zero width and height, the next pointermove on the tilt element
writes the rotation computed from px = (clientX - left) / width and
py = (clientY - top) / height of that rectangle, and the next mousemove on the phone
writes the layer transforms computed from px - 0.5 and py - 0.5 of that rectangle,
whatever was cached before the resize and whatever the layout is at the time of the
pointer event. -/
theorem resize_refreshes_cached_rects (s : GeomState) (L : Layout) (es : List GeomEvent)
    (hes : ∀ e ∈ es, GeomEvent.isResize e = false) :
    (∀ i, i < s.tiltEls.length →
      ∃ el, (geomRun (geomStep s (.resize L)) es).tiltEls[i]? = some el ∧
        el.rect = some (L.tiltRect i) ∧
        ((L.tiltRect i).width ≠ 0 → (L.tiltRect i).height ≠ 0 →
          ∀ (L1 : Layout) (x y : ℚ),
            (geomStep (geomRun (geomStep s (.resize L)) es)
                (.pointermove L1 i x y)).tiltEls[i]? =
              some { el with transform := some (TiltTransform.mk
                (((y - (L.tiltRect i).top) / (L.tiltRect i).height - 1 / 2) * (-12))
                (((x - (L.tiltRect i).left) / (L.tiltRect i).width - 1 / 2) * 18) 6) })) ∧
    (∀ p0, s.phone = some p0 →
      ∃ p, (geomRun (geomStep s (.resize L)) es).phone = some p ∧
        p.rect = L.phoneRect ∧
        p.layers.map (fun l => l.dataDepth) = p0.layers.map (fun l => l.dataDepth) ∧
        (L.phoneRect.width ≠ 0 → L.phoneRect.height ≠ 0 →
          ∀ x y : ℚ,
            (geomStep (geomRun (geomStep s (.resize L)) es)
                (.phoneMousemove x y)).phone.map
              (fun q => (q.rect, q.layers.map (fun l => l.transform))) =
            some (L.phoneRect, p.layers.map (fun l =>
              (((x - L.phoneRect.left) / L.phoneRect.width - 1 / 2) * phoneDepth l * 40,
               ((y - L.phoneRect.top) / L.phoneRect.height - 1 / 2) * phoneDepth l * 30,
               ((y - L.phoneRect.top) / L.phoneRect.height - 1 / 2) * 6))))) := by
  have hc := cachedFrom_run L es _ hes (cachedFrom_resize L s)
  have hlenEq := (geomRun_shape es (geomStep s (.resize L))).1.trans
    (geomStep_shape s (.resize L)).1
  have hdEq := (geomRun_shape es (geomStep s (.resize L))).2.trans
    (geomStep_shape s (.resize L)).2
  generalize geomRun (geomStep s (.resize L)) es = s1 at hc hlenEq hdEq ⊢
  constructor
  · intro i hi
    have hlen : i < s1.tiltEls.length := by rw [hlenEq]; exact hi
    have hget : s1.tiltEls[i]? = some (s1.tiltEls[i]) := List.getElem?_eq_getElem hlen
    have hr := hc.1 i _ hget
    refine ⟨_, hget, hr, ?_⟩
    intro _ _ L1 x y
    simp only [geomStep, getElem?_modifyAt, if_true, hget, Option.map_some']
    rw [tiltPointermoveEl_cached L1 i x y _ _ hr]
    rfl
  · intro p0 hp0
    rw [hp0] at hdEq
    cases hp : s1.phone with
    | none => rw [hp] at hdEq; simp at hdEq
    | some p =>
      rw [hp] at hdEq
      simp only [Option.map_some', Option.some.injEq] at hdEq
      have hr := hc.2 p hp
      refine ⟨p, rfl, hr, hdEq, ?_⟩
      intro _ _ x y
      simp [geomStep, hp, phoneMousemove, phoneNormalised, hr, Function.comp]

/-- Witness of C7: one tilt element and a phone with one layer, cached at the unit
square; a resize with a 200 by 100 card and a 300 by 600 phone, then a pointerenter:
the card and the phone are still there with the new rectangles. -/
theorem resize_refreshes_cached_rects_witness :
    (∀ e ∈ [GeomEvent.pointerenter 0], GeomEvent.isResize e = false) ∧
    (∃ el, (geomRun (geomStep
          ⟨[⟨some ⟨0, 0, 1, 1⟩, "", none⟩], some ⟨⟨0, 0, 1, 1⟩, [⟨none, (0, 0, 0)⟩]⟩⟩
          (.resize ⟨fun _ => ⟨10, 20, 200, 100⟩, ⟨5, 5, 300, 600⟩⟩))
          [GeomEvent.pointerenter 0]).tiltEls[0]? = some el ∧
      el.rect = some ⟨10, 20, 200, 100⟩ ∧
      ((200 : ℚ) ≠ 0 → (100 : ℚ) ≠ 0 →
        ∀ (L1 : Layout) (x y : ℚ),
          (geomStep (geomRun (geomStep
            ⟨[⟨some ⟨0, 0, 1, 1⟩, "", none⟩], some ⟨⟨0, 0, 1, 1⟩, [⟨none, (0, 0, 0)⟩]⟩⟩
            (.resize ⟨fun _ => ⟨10, 20, 200, 100⟩, ⟨5, 5, 300, 600⟩⟩))
            [GeomEvent.pointerenter 0]) (.pointermove L1 0 x y)).tiltEls[0]? =
          some { el with transform := some (TiltTransform.mk
            (((y - 20) / 100 - 1 / 2) * (-12)) (((x - 10) / 200 - 1 / 2) * 18) 6) })) ∧
    (∃ p, (geomRun (geomStep
          ⟨[⟨some ⟨0, 0, 1, 1⟩, "", none⟩], some ⟨⟨0, 0, 1, 1⟩, [⟨none, (0, 0, 0)⟩]⟩⟩
          (.resize ⟨fun _ => ⟨10, 20, 200, 100⟩, ⟨5, 5, 300, 600⟩⟩))
          [GeomEvent.pointerenter 0]).phone = some p ∧
      p.rect = ⟨5, 5, 300, 600⟩ ∧
      p.layers.map (fun l => l.dataDepth) = [none]) :=
  ⟨by simp [GeomEvent.isResize],
   (resize_refreshes_cached_rects
     ⟨[⟨some ⟨0, 0, 1, 1⟩, "", none⟩], some ⟨⟨0, 0, 1, 1⟩, [⟨none, (0, 0, 0)⟩]⟩⟩
     ⟨fun _ => ⟨10, 20, 200, 100⟩, ⟨5, 5, 300, 600⟩⟩ [GeomEvent.pointerenter 0]
     (by simp [GeomEvent.isResize])).1 0 (by simp),
   (fun ⟨p, h1, h2, h3, _⟩ => ⟨p, h1, h2, h3⟩)
    ((resize_refreshes_cached_rects
     ⟨[⟨some ⟨0, 0, 1, 1⟩, "", none⟩], some ⟨⟨0, 0, 1, 1⟩, [⟨none, (0, 0, 0)⟩]⟩⟩
     ⟨fun _ => ⟨10, 20, 200, 100⟩, ⟨5, 5, 300, 600⟩⟩ [GeomEvent.pointerenter 0]
     (by simp [GeomEvent.isResize])).2 ⟨⟨0, 0, 1, 1⟩, [⟨none, (0, 0, 0)⟩]⟩ rfl)⟩

/-- The region the callback touches is in the document afterwards. -/
theorem timeoutRegion_mem (txt : Option String) (s : FormState) :
    timeoutRegion s ∈ (submitTimeout txt s).feedback := by
  have key : ∀ (l : List FeedbackEl) (n : FeedbackEl),
      l.find? (fun n => n.inContact) = some n →
      { n with text := foundText } ∈ setRegionText foundText l := by
    intro l
    induction l with
    | nil => intro n h; simp at h
    | cons a as ih =>
      intro n h
      by_cases ha : a.inContact = true
      · simp only [List.find?_cons, ha, Option.some.injEq] at h
        subst h
        simp [setRegionText, ha]
      · simp only [List.find?_cons, ha] at h
        simp only [setRegionText, ha, Bool.false_eq_true, if_false, List.mem_cons]
        exact Or.inr (ih n h)
  unfold timeoutRegion submitTimeout
  cases hq : queryRegion s with
  | none => simp
  | some n => exact key s.feedback n hq

/-- C6 (as amended): for every form submission, whatever the field values, when the
timer fires the region the callback touches is in the document and its text is fixed
by the document alone: the short confirmation when a '#contact .form-feedback' region
already exists, the long one (with the 48h promise) when the callback creates the
region; neither the field values nor the captured button label change it. -/
theorem feedback_text_by_region (txt : Option String) (s : FormState)
    (values : List String) :
    timeoutRegion s ∈ (submitTimeout txt s).feedback ∧
    (timeoutRegion s).text =
      (if (queryRegion s).isSome then foundText else createdText) ∧
    timeoutRegion { s with fieldValues := values } = timeoutRegion s := by
  refine ⟨timeoutRegion_mem txt s, ?_, rfl⟩
  unfold timeoutRegion
  cases hq : queryRegion s with
  | none => simp [createdRegion]
  | some n => simp

/-- C6 fails as stated: submitting on a page without a feedback region ends with the
long confirmation text, on a page that already has one with the short text, and the two
texts differ. -/
theorem feedback_text_not_fixed :
    (formRun ⟨some "Enviar", [], true, ["a"], [""], []⟩
      [.submit, .timeout]).feedback.map (fun n => n.text) = [createdText] ∧
    (formRun ⟨some "Enviar", [⟨true, none, none, ""⟩], true, ["a"], [""], []⟩
      [.submit, .timeout]).feedback.map (fun n => n.text) = [foundText] ∧
    createdText ≠ foundText := by
  refine ⟨?_, ?_, by decide⟩
  · simp [formRun, formStep, submitHandler, submitTimeout, queryRegion, createdRegion]
  · simp [formRun, formStep, submitHandler, submitTimeout, queryRegion, setRegionText]

/-- C10: with the button labelled "Enviar", a single submission ends with the label
restored, but two submissions, the second before the first timer has fired, end with
the label "Enviando..." once both timers have fired. -/
theorem label_stuck_after_overlapping_submits :
    (formDrain (formRun ⟨some "Enviar", [], true, [], [], []⟩ [.submit])).btnText
      = some "Enviar" ∧
    (formDrain (formRun ⟨some "Enviar", [], true, [], [], []⟩ [.submit, .submit])).btnText
      = some "Enviando..." ∧
    (formDrain (formRun ⟨some "Enviar", [], true, [], [], []⟩
      [.submit, .submit])).pending = [] ∧
    (formRun ⟨some "Enviar", [], true, [], [], []⟩
      [.submit, .submit, .timeout, .timeout]).btnText = some "Enviando..." := by
  refine ⟨?_, ?_, ?_, ?_⟩ <;>
    simp [formDrain, formRun, formStep, submitHandler, submitTimeout]

/-- Witness of C1: with pointer (1/2, -1), scroll offset 40 and data-depth 2 the
translation is (30, -192/5); a second state with the same pointer, scroll offset and
depth but another viewport cache and previous transform gets the same translation. -/
theorem applyParallax_linear_witness :
    (applyParallax ⟨1000, 800, 40, 40⟩
        ⟨1 / 2, -1, 1000, 800, [⟨some (.num 2), (0, 0)⟩]⟩).parallaxEls.map
      (fun el => el.transform) = [(30, -192 / 5)] ∧
    (applyParallax ⟨1000, 800, 40, 40⟩
        ⟨1 / 2, -1, 1000, 800, [⟨some (.num 2), (0, 0)⟩]⟩).parallaxEls.map
      (fun el => el.transform) =
    (applyParallax ⟨500, 400, 40, 40⟩
        ⟨1 / 2, -1, 500, 400, [⟨some (.num 2), (7, 7)⟩]⟩).parallaxEls.map
      (fun el => el.transform) :=
  ⟨(applyParallax_linear.1 ⟨1000, 800, 40, 40⟩
      ⟨1 / 2, -1, 1000, 800, [⟨some (.num 2), (0, 0)⟩]⟩).trans
      (by norm_num [depthOf, parseDepth, orDefault]),
   applyParallax_linear.2.2.2.2.1 ⟨1000, 800, 40, 40⟩ ⟨500, 400, 40, 40⟩
    ⟨1 / 2, -1, 1000, 800, [⟨some (.num 2), (0, 0)⟩]⟩
    ⟨1 / 2, -1, 500, 400, [⟨some (.num 2), (7, 7)⟩]⟩ rfl rfl rfl rfl
    (by simp [depthOf, parseDepth])⟩

end Bravo
